import Mathlib

/-!
Shallow embedding of the two FastAPI services of the e-learning
repository (`packages/ai-service/src/main.py` and
`packages/audio-processing-service/src/main.py`).

Each Python route handler is a Lean function from its (parsed) request
to an `HttpResponse` whose body is an ordered list of key/value pairs,
transcribing the Python dict literal the handler returns.  Pydantic
request models become structures, and their validation of a raw JSON
body becomes an explicit `parse` function returning `Except FieldError`.
FastAPI's handling of multipart endpoints (a required `File(...)`
upload plus optional query parameters with defaults) becomes a
`_route` wrapper taking `Option`-typed raw parameters.  Floats in the
source (`speed`, `pitch`, `time.time()`) only ever appear as literals
that are never operated on, so they are embedded as `Rat`.
-/

/-- A JSON value, as returned in response bodies. -/
inductive Json where
  | str : String → Json
  | num : Rat → Json
  | arr : List Json → Json
  | obj : List (String × Json) → Json

/-- An HTTP response: status code plus JSON object body (ordered fields).
FastAPI returns dict bodies with status code 200 unless told otherwise. -/
structure HttpResponse where
  statusCode : Nat
  body : List (String × Json)

/-- Look up a field of a JSON object body by key. -/
def lookupField : List (String × Json) → String → Option Json
  | [], _ => none
  | (k2, v) :: rest, k => if k2 == k then some v else lookupField rest k

/-- Whether a JSON object body has a field with the given key. -/
def hasKey : List (String × Json) → String → Bool
  | [], _ => false
  | (k2, _) :: rest, k => k2 == k || hasKey rest k

/-- A single field-level validation error, as pydantic reports for a
request body that does not match the declared model. -/
inductive FieldError where
  | missing : String → FieldError
  | wrongType : String → FieldError

/-- Pydantic semantics of a required `str` field: the key must be
present and hold a string; there is no default. -/
def getStr (body : List (String × Json)) (k : String) : Except FieldError String :=
  match lookupField body k with
  | some (Json.str s) => .ok s
  | some _ => .error (.wrongType k)
  | none => .error (.missing k)

/-- Pydantic semantics of an optional `str` field with a default:
absent means the default, present must hold a string. -/
def getStrD (body : List (String × Json)) (k : String) (d : String) : Except FieldError String :=
  match lookupField body k with
  | some (Json.str s) => .ok s
  | some _ => .error (.wrongType k)
  | none => .ok d

/-- Pydantic semantics of an optional `float` field with a default:
absent means the default, present must hold a number. -/
def getNumD (body : List (String × Json)) (k : String) (d : Rat) : Except FieldError Rat :=
  match lookupField body k with
  | some (Json.num x) => .ok x
  | some _ => .error (.wrongType k)
  | none => .ok d

/-- The ambient clock at the instant a handler runs: what
`datetime.now().isoformat()` and `time.time()` return.  The epoch
value is seconds since the Unix epoch, not since process start. -/
structure Clock where
  isoNow : String
  epochNow : Rat

/-- A multipart file upload, as FastAPI's `UploadFile`: the client
supplied filename together with the uploaded bytes. -/
structure UploadFile where
  filename : String
  content : List Nat

namespace AIService

structure TextAnalysisRequest where
  text : String
  language : String := "en"

def TextAnalysisRequest.parse (body : List (String × Json)) : Except FieldError TextAnalysisRequest := do
  let text ← getStr body "text"
  let language ← getStrD body "language" "en"
  return { text := text, language := language }

structure TranslationRequest where
  text : String
  source_lang : String := "vi"
  target_lang : String := "en"

def TranslationRequest.parse (body : List (String × Json)) : Except FieldError TranslationRequest := do
  let text ← getStr body "text"
  let source_lang ← getStrD body "source_lang" "vi"
  let target_lang ← getStrD body "target_lang" "en"
  return { text := text, source_lang := source_lang, target_lang := target_lang }

structure GrammarCheckRequest where
  text : String

def GrammarCheckRequest.parse (body : List (String × Json)) : Except FieldError GrammarCheckRequest := do
  let text ← getStr body "text"
  return { text := text }

structure ContentGenerationRequest where
  topic : String
  level : String := "beginner"
  content_type : String := "lesson"

def ContentGenerationRequest.parse (body : List (String × Json)) : Except FieldError ContentGenerationRequest := do
  let topic ← getStr body "topic"
  let level ← getStrD body "level" "beginner"
  let content_type ← getStrD body "content_type" "lesson"
  return { topic := topic, level := level, content_type := content_type }

structure TTSRequest where
  text : String
  language : String := "en"
  voice : String := "default"

def TTSRequest.parse (body : List (String × Json)) : Except FieldError TTSRequest := do
  let text ← getStr body "text"
  let language ← getStrD body "language" "en"
  let voice ← getStrD body "voice" "default"
  return { text := text, language := language, voice := voice }

def health_check (clock : Clock) : HttpResponse :=
  { statusCode := 200
    body := [
      ("status", .str "OK"),
      ("service", .str "AI Service"),
      ("timestamp", .str clock.isoNow),
      ("uptime", .num clock.epochNow),
      ("version", .str "1.0.0")] }

def analyze_text (request : TextAnalysisRequest) : HttpResponse :=
  { statusCode := 200
    body := [
      ("message", .str "Text analysis endpoint"),
      ("text", .str request.text),
      ("language", .str request.language),
      ("status", .str "Not implemented yet"),
      ("service", .str "AI Service")] }

def analyze_difficulty (request : TextAnalysisRequest) : HttpResponse :=
  { statusCode := 200
    body := [
      ("message", .str "Text difficulty analysis endpoint"),
      ("text", .str request.text),
      ("status", .str "Not implemented yet"),
      ("service", .str "AI Service")] }

def translate_text (request : TranslationRequest) : HttpResponse :=
  { statusCode := 200
    body := [
      ("message", .str "Translation endpoint"),
      ("source_text", .str request.text),
      ("source_lang", .str request.source_lang),
      ("target_lang", .str request.target_lang),
      ("status", .str "Not implemented yet"),
      ("service", .str "AI Service")] }

def check_grammar (request : GrammarCheckRequest) : HttpResponse :=
  { statusCode := 200
    body := [
      ("message", .str "Grammar check endpoint"),
      ("text", .str request.text),
      ("status", .str "Not implemented yet"),
      ("service", .str "AI Service")] }

def correct_grammar (request : GrammarCheckRequest) : HttpResponse :=
  { statusCode := 200
    body := [
      ("message", .str "Grammar correction endpoint"),
      ("text", .str request.text),
      ("status", .str "Not implemented yet"),
      ("service", .str "AI Service")] }

def generate_content (request : ContentGenerationRequest) : HttpResponse :=
  { statusCode := 200
    body := [
      ("message", .str "Content generation endpoint"),
      ("topic", .str request.topic),
      ("level", .str request.level),
      ("content_type", .str request.content_type),
      ("status", .str "Not implemented yet"),
      ("service", .str "AI Service")] }

def generate_exercises (request : ContentGenerationRequest) : HttpResponse :=
  { statusCode := 200
    body := [
      ("message", .str "Exercise generation endpoint"),
      ("topic", .str request.topic),
      ("level", .str request.level),
      ("status", .str "Not implemented yet"),
      ("service", .str "AI Service")] }

def generate_questions (request : ContentGenerationRequest) : HttpResponse :=
  { statusCode := 200
    body := [
      ("message", .str "Question generation endpoint"),
      ("topic", .str request.topic),
      ("level", .str request.level),
      ("status", .str "Not implemented yet"),
      ("service", .str "AI Service")] }

def generate_speech (request : TTSRequest) : HttpResponse :=
  { statusCode := 200
    body := [
      ("message", .str "Text-to-Speech generation endpoint"),
      ("text", .str request.text),
      ("language", .str request.language),
      ("voice", .str request.voice),
      ("status", .str "Not implemented yet"),
      ("service", .str "AI Service")] }

def chat_conversation : HttpResponse :=
  { statusCode := 200
    body := [
      ("message", .str "Conversational AI endpoint"),
      ("status", .str "Not implemented yet"),
      ("service", .str "AI Service")] }

def speaking_practice : HttpResponse :=
  { statusCode := 200
    body := [
      ("message", .str "Speaking practice AI endpoint"),
      ("status", .str "Not implemented yet"),
      ("service", .str "AI Service")] }

def get_docs_info : HttpResponse :=
  { statusCode := 200
    body := [
      ("name", .str "E-Learning AI Service"),
      ("version", .str "1.0.0"),
      ("description", .str "AI services for English learning application"),
      ("features", .arr [
        .str "Text analysis and difficulty assessment",
        .str "Translation services",
        .str "Grammar checking and correction",
        .str "Content generation (lessons, exercises, questions)",
        .str "Text-to-Speech synthesis",
        .str "Conversational AI for practice"]),
      ("endpoints", .obj [
        ("/health", .str "Health check"),
        ("/analyze/*", .str "Text analysis services"),
        ("/translate", .str "Translation services"),
        ("/grammar/*", .str "Grammar checking services"),
        ("/generate/*", .str "Content generation services"),
        ("/tts/*", .str "Text-to-Speech services"),
        ("/chat/*", .str "Conversational AI services")])] }

def root : HttpResponse :=
  { statusCode := 200
    body := [
      ("message", .str "E-Learning AI Service"),
      ("version", .str "1.0.0"),
      ("status", .str "Running"),
      ("docs", .str "/docs"),
      ("health", .str "/health")] }

end AIService

namespace AudioService

structure VoiceSynthesisRequest where
  text : String
  language : String := "en"
  voice : String := "default"
  speed : Rat := 1
  pitch : Rat := 1

def VoiceSynthesisRequest.parse (body : List (String × Json)) : Except FieldError VoiceSynthesisRequest := do
  let text ← getStr body "text"
  let language ← getStrD body "language" "en"
  let voice ← getStrD body "voice" "default"
  let speed ← getNumD body "speed" 1
  let pitch ← getNumD body "pitch" 1
  return { text := text, language := language, voice := voice, speed := speed, pitch := pitch }

def health_check (clock : Clock) : HttpResponse :=
  { statusCode := 200
    body := [
      ("status", .str "OK"),
      ("service", .str "Audio Processing Service"),
      ("timestamp", .str clock.isoNow),
      ("uptime", .num clock.epochNow),
      ("version", .str "1.0.0")] }

def transcribe_audio (audio_file : UploadFile) (language : String) : HttpResponse :=
  { statusCode := 200
    body := [
      ("message", .str "Audio transcription endpoint"),
      ("filename", .str audio_file.filename),
      ("language", .str language),
      ("status", .str "Not implemented yet"),
      ("service", .str "Audio Processing Service")] }

def transcribe_audio_route (audio_file : Option UploadFile) (language : Option String) : Except FieldError HttpResponse :=
  match audio_file with
  | none => .error (.missing "audio_file")
  | some f => .ok (transcribe_audio f (language.getD "en"))

def transcribe_real_time : HttpResponse :=
  { statusCode := 200
    body := [
      ("message", .str "Real-time audio transcription endpoint"),
      ("status", .str "Not implemented yet"),
      ("service", .str "Audio Processing Service")] }

def analyze_pronunciation (audio_file : UploadFile) (reference_text : String) (language : String) : HttpResponse :=
  { statusCode := 200
    body := [
      ("message", .str "Pronunciation analysis endpoint"),
      ("filename", .str audio_file.filename),
      ("reference_text", .str reference_text),
      ("language", .str language),
      ("status", .str "Not implemented yet"),
      ("service", .str "Audio Processing Service")] }

def analyze_pronunciation_route (audio_file : Option UploadFile) (reference_text : Option String) (language : Option String) : Except FieldError HttpResponse :=
  match audio_file with
  | none => .error (.missing "audio_file")
  | some f => .ok (analyze_pronunciation f (reference_text.getD "") (language.getD "en"))

def score_pronunciation (audio_file : UploadFile) (reference_text : String) (language : String) : HttpResponse :=
  { statusCode := 200
    body := [
      ("message", .str "Pronunciation scoring endpoint"),
      ("filename", .str audio_file.filename),
      ("reference_text", .str reference_text),
      ("language", .str language),
      ("status", .str "Not implemented yet"),
      ("service", .str "Audio Processing Service")] }

def score_pronunciation_route (audio_file : Option UploadFile) (reference_text : Option String) (language : Option String) : Except FieldError HttpResponse :=
  match audio_file with
  | none => .error (.missing "audio_file")
  | some f => .ok (score_pronunciation f (reference_text.getD "") (language.getD "en"))

def pronunciation_feedback (audio_file : UploadFile) (reference_text : String) (language : String) : HttpResponse :=
  { statusCode := 200
    body := [
      ("message", .str "Pronunciation feedback endpoint"),
      ("filename", .str audio_file.filename),
      ("reference_text", .str reference_text),
      ("language", .str language),
      ("status", .str "Not implemented yet"),
      ("service", .str "Audio Processing Service")] }

def pronunciation_feedback_route (audio_file : Option UploadFile) (reference_text : Option String) (language : Option String) : Except FieldError HttpResponse :=
  match audio_file with
  | none => .error (.missing "audio_file")
  | some f => .ok (pronunciation_feedback f (reference_text.getD "") (language.getD "en"))

def generate_voice (request : VoiceSynthesisRequest) : HttpResponse :=
  { statusCode := 200
    body := [
      ("message", .str "Voice synthesis endpoint"),
      ("text", .str request.text),
      ("language", .str request.language),
      ("voice", .str request.voice),
      ("speed", .num request.speed),
      ("pitch", .num request.pitch),
      ("status", .str "Not implemented yet"),
      ("service", .str "Audio Processing Service")] }

def generate_ssml_voice : HttpResponse :=
  { statusCode := 200
    body := [
      ("message", .str "SSML voice synthesis endpoint"),
      ("status", .str "Not implemented yet"),
      ("service", .str "Audio Processing Service")] }

def analyze_audio (audio_file : UploadFile) (analysis_type : String) : HttpResponse :=
  { statusCode := 200
    body := [
      ("message", .str "Audio analysis endpoint"),
      ("filename", .str audio_file.filename),
      ("analysis_type", .str analysis_type),
      ("status", .str "Not implemented yet"),
      ("service", .str "Audio Processing Service")] }

def analyze_audio_route (audio_file : Option UploadFile) (analysis_type : Option String) : Except FieldError HttpResponse :=
  match audio_file with
  | none => .error (.missing "audio_file")
  | some f => .ok (analyze_audio f (analysis_type.getD "general"))

def analyze_phonemes (audio_file : UploadFile) (language : String) : HttpResponse :=
  { statusCode := 200
    body := [
      ("message", .str "Phoneme analysis endpoint"),
      ("filename", .str audio_file.filename),
      ("language", .str language),
      ("status", .str "Not implemented yet"),
      ("service", .str "Audio Processing Service")] }

def analyze_phonemes_route (audio_file : Option UploadFile) (language : Option String) : Except FieldError HttpResponse :=
  match audio_file with
  | none => .error (.missing "audio_file")
  | some f => .ok (analyze_phonemes f (language.getD "en"))

def analyze_rhythm (audio_file : UploadFile) (language : String) : HttpResponse :=
  { statusCode := 200
    body := [
      ("message", .str "Rhythm analysis endpoint"),
      ("filename", .str audio_file.filename),
      ("language", .str language),
      ("status", .str "Not implemented yet"),
      ("service", .str "Audio Processing Service")] }

def analyze_rhythm_route (audio_file : Option UploadFile) (language : Option String) : Except FieldError HttpResponse :=
  match audio_file with
  | none => .error (.missing "audio_file")
  | some f => .ok (analyze_rhythm f (language.getD "en"))

def reduce_noise (audio_file : UploadFile) : HttpResponse :=
  { statusCode := 200
    body := [
      ("message", .str "Noise reduction endpoint"),
      ("filename", .str audio_file.filename),
      ("status", .str "Not implemented yet"),
      ("service", .str "Audio Processing Service")] }

def reduce_noise_route (audio_file : Option UploadFile) : Except FieldError HttpResponse :=
  match audio_file with
  | none => .error (.missing "audio_file")
  | some f => .ok (reduce_noise f)

def normalize_audio (audio_file : UploadFile) : HttpResponse :=
  { statusCode := 200
    body := [
      ("message", .str "Audio normalization endpoint"),
      ("filename", .str audio_file.filename),
      ("status", .str "Not implemented yet"),
      ("service", .str "Audio Processing Service")] }

def normalize_audio_route (audio_file : Option UploadFile) : Except FieldError HttpResponse :=
  match audio_file with
  | none => .error (.missing "audio_file")
  | some f => .ok (normalize_audio f)

def convert_audio (audio_file : UploadFile) (target_format : String) : HttpResponse :=
  { statusCode := 200
    body := [
      ("message", .str "Audio conversion endpoint"),
      ("filename", .str audio_file.filename),
      ("target_format", .str target_format),
      ("status", .str "Not implemented yet"),
      ("service", .str "Audio Processing Service")] }

def convert_audio_route (audio_file : Option UploadFile) (target_format : Option String) : Except FieldError HttpResponse :=
  match audio_file with
  | none => .error (.missing "audio_file")
  | some f => .ok (convert_audio f (target_format.getD "wav"))

def conversation_practice : HttpResponse :=
  { statusCode := 200
    body := [
      ("message", .str "Conversation practice endpoint"),
      ("status", .str "Not implemented yet"),
      ("service", .str "Audio Processing Service")] }

def word_pronunciation_practice : HttpResponse :=
  { statusCode := 200
    body := [
      ("message", .str "Word pronunciation practice endpoint"),
      ("status", .str "Not implemented yet"),
      ("service", .str "Audio Processing Service")] }

def sentence_reading_practice : HttpResponse :=
  { statusCode := 200
    body := [
      ("message", .str "Sentence reading practice endpoint"),
      ("status", .str "Not implemented yet"),
      ("service", .str "Audio Processing Service")] }

def get_docs_info : HttpResponse :=
  { statusCode := 200
    body := [
      ("name", .str "E-Learning Audio Processing Service"),
      ("version", .str "1.0.0"),
      ("description", .str "Audio processing services for English learning application"),
      ("features", .arr [
        .str "Audio transcription (Whisper integration)",
        .str "Pronunciation analysis and scoring",
        .str "Voice synthesis with customization",
        .str "Audio analysis (phonemes, rhythm, quality)",
        .str "Audio processing (noise reduction, normalization)",
        .str "Speaking practice tools"]),
      ("endpoints", .obj [
        ("/health", .str "Health check"),
        ("/transcribe/*", .str "Audio transcription services"),
        ("/pronunciation/*", .str "Pronunciation analysis services"),
        ("/synthesis/*", .str "Voice synthesis services"),
        ("/analyze/*", .str "Audio analysis services"),
        ("/process/*", .str "Audio processing services"),
        ("/practice/*", .str "Speaking practice services")]),
      ("supported_formats", .arr [.str "wav", .str "mp3", .str "m4a", .str "ogg"]),
      ("languages", .arr [.str "en", .str "vi"])] }

def root : HttpResponse :=
  { statusCode := 200
    body := [
      ("message", .str "E-Learning Audio Processing Service"),
      ("version", .str "1.0.0"),
      ("status", .str "Running"),
      ("docs", .str "/docs"),
      ("health", .str "/health")] }

end AudioService

/-- A response envelope carries both a `status` and a `service` field. -/
def envelopeOK (r : HttpResponse) : Prop :=
  hasKey r.body "status" = true ∧ hasKey r.body "service" = true

/-- C1 counterexample: GET /docs-info on either service returns a body with
neither a `status` nor a `service` field, and GET / on either service returns
a body with no `service` field, refuting the claim that every endpoint's
response contains both. -/
theorem C1_counterexample :
    hasKey AIService.get_docs_info.body "status" = false ∧
    hasKey AIService.get_docs_info.body "service" = false ∧
    hasKey AudioService.get_docs_info.body "status" = false ∧
    hasKey AudioService.get_docs_info.body "service" = false ∧
    hasKey AIService.root.body "service" = false ∧
    hasKey AudioService.root.body "service" = false := by
  refine ⟨rfl, rfl, rfl, rfl, rfl, rfl⟩

set_option maxRecDepth 4000 in
/-- C1 (amended): every POST task endpoint response and every GET /health
response of either service contains both a `status` and a `service` field;
GET / contains a `status` field but no `service` field; GET /docs-info
contains neither. -/
theorem C1_envelope_fields
    (clock : Clock)
    (a : AIService.TextAnalysisRequest) (t : AIService.TranslationRequest)
    (g : AIService.GrammarCheckRequest) (c : AIService.ContentGenerationRequest)
    (s : AIService.TTSRequest) (v : AudioService.VoiceSynthesisRequest)
    (f : UploadFile) (ref lang atype fmt : String) :
    (envelopeOK (AIService.health_check clock) ∧
     envelopeOK (AIService.analyze_text a) ∧
     envelopeOK (AIService.analyze_difficulty a) ∧
     envelopeOK (AIService.translate_text t) ∧
     envelopeOK (AIService.check_grammar g) ∧
     envelopeOK (AIService.correct_grammar g) ∧
     envelopeOK (AIService.generate_content c) ∧
     envelopeOK (AIService.generate_exercises c) ∧
     envelopeOK (AIService.generate_questions c) ∧
     envelopeOK (AIService.generate_speech s) ∧
     envelopeOK AIService.chat_conversation ∧
     envelopeOK AIService.speaking_practice) ∧
    (envelopeOK (AudioService.health_check clock) ∧
     envelopeOK (AudioService.transcribe_audio f lang) ∧
     envelopeOK AudioService.transcribe_real_time ∧
     envelopeOK (AudioService.analyze_pronunciation f ref lang) ∧
     envelopeOK (AudioService.score_pronunciation f ref lang) ∧
     envelopeOK (AudioService.pronunciation_feedback f ref lang) ∧
     envelopeOK (AudioService.generate_voice v) ∧
     envelopeOK AudioService.generate_ssml_voice ∧
     envelopeOK (AudioService.analyze_audio f atype) ∧
     envelopeOK (AudioService.analyze_phonemes f lang) ∧
     envelopeOK (AudioService.analyze_rhythm f lang) ∧
     envelopeOK (AudioService.reduce_noise f) ∧
     envelopeOK (AudioService.normalize_audio f) ∧
     envelopeOK (AudioService.convert_audio f fmt) ∧
     envelopeOK AudioService.conversation_practice ∧
     envelopeOK AudioService.word_pronunciation_practice ∧
     envelopeOK AudioService.sentence_reading_practice) ∧
    (hasKey AIService.root.body "status" = true ∧
     hasKey AIService.root.body "service" = false ∧
     hasKey AudioService.root.body "status" = true ∧
     hasKey AudioService.root.body "service" = false) ∧
    (hasKey AIService.get_docs_info.body "status" = false ∧
     hasKey AIService.get_docs_info.body "service" = false ∧
     hasKey AudioService.get_docs_info.body "status" = false ∧
     hasKey AudioService.get_docs_info.body "service" = false) := by
  repeat constructor

/-- C2 counterexample: a /synthesis/generate body with speed=5 (outside the
range given by the spec) passes pydantic validation and the handler returns
a 200 envelope, refuting the claim that such a request is rejected with a
validation error. -/
theorem C2_counterexample :
    AudioService.VoiceSynthesisRequest.parse
        [("text", Json.str "hello"), ("speed", Json.num 5)]
      = Except.ok { text := "hello", speed := 5 } ∧
    (AudioService.generate_voice { text := "hello", speed := 5 }).statusCode = 200 := by
  exact ⟨rfl, rfl⟩

/-- C2 (amended): a POST /synthesis/generate request whose speed or pitch
lies outside (0, 3] is NOT rejected: validation only requires the fields to
be numbers, the handler runs, and a 2xx envelope echoing the out-of-range
speed and pitch (with status "Not implemented yet") is returned. -/
theorem C2_out_of_range_accepted (text : String) (s p : Rat)
    (h : ¬(0 < s ∧ s ≤ 3) ∨ ¬(0 < p ∧ p ≤ 3)) :
    AudioService.VoiceSynthesisRequest.parse
        [("text", Json.str text), ("speed", Json.num s), ("pitch", Json.num p)]
      = Except.ok { text := text, speed := s, pitch := p } ∧
    (AudioService.generate_voice { text := text, speed := s, pitch := p }).statusCode = 200 ∧
    lookupField (AudioService.generate_voice { text := text, speed := s, pitch := p }).body "speed"
      = some (Json.num s) ∧
    lookupField (AudioService.generate_voice { text := text, speed := s, pitch := p }).body "pitch"
      = some (Json.num p) ∧
    lookupField (AudioService.generate_voice { text := text, speed := s, pitch := p }).body "status"
      = some (Json.str "Not implemented yet") := by
  exact ⟨rfl, rfl, rfl, rfl, rfl⟩

/-- C2 witness: instantiation at speed=5, pitch=1. -/
theorem C2_out_of_range_accepted_witness :
    (¬((0:Rat) < 5 ∧ (5:Rat) ≤ 3) ∨ ¬((0:Rat) < 1 ∧ (1:Rat) ≤ 3)) ∧
    (AudioService.VoiceSynthesisRequest.parse
        [("text", Json.str "hello"), ("speed", Json.num 5), ("pitch", Json.num 1)]
      = Except.ok { text := "hello", speed := 5, pitch := 1 } ∧
    (AudioService.generate_voice { text := "hello", speed := 5, pitch := 1 }).statusCode = 200 ∧
    lookupField (AudioService.generate_voice { text := "hello", speed := 5, pitch := 1 }).body "speed"
      = some (Json.num 5) ∧
    lookupField (AudioService.generate_voice { text := "hello", speed := 5, pitch := 1 }).body "pitch"
      = some (Json.num 1) ∧
    lookupField (AudioService.generate_voice { text := "hello", speed := 5, pitch := 1 }).body "status"
      = some (Json.str "Not implemented yet")) :=
  ⟨Or.inl (by norm_num), C2_out_of_range_accepted "hello" 5 1 (Or.inl (by norm_num))⟩

/-- C3 (code bug): the health endpoints populate the `uptime` field with
the ambient clock's absolute epoch time (the embedding of Python's
`time.time()`), not the seconds elapsed since process start; in particular,
for a process started at epoch second 10 and queried at epoch second 100,
the response reports uptime 100, while the elapsed time 90 differs from it.
The `status`, `service`, `timestamp` and `version` fields are as claimed. -/
theorem C3_health_uptime_is_epoch_time :
    (∀ clock : Clock,
      lookupField (AudioService.health_check clock).body "uptime"
        = some (Json.num clock.epochNow) ∧
      lookupField (AudioService.health_check clock).body "status" = some (Json.str "OK") ∧
      lookupField (AudioService.health_check clock).body "service"
        = some (Json.str "Audio Processing Service") ∧
      lookupField (AudioService.health_check clock).body "timestamp"
        = some (Json.str clock.isoNow) ∧
      lookupField (AudioService.health_check clock).body "version" = some (Json.str "1.0.0") ∧
      lookupField (AIService.health_check clock).body "uptime"
        = some (Json.num clock.epochNow) ∧
      lookupField (AIService.health_check clock).body "service" = some (Json.str "AI Service")) ∧
    lookupField (AudioService.health_check { isoNow := "2026-10-12T00:00:00", epochNow := 100 }).body "uptime"
      = some (Json.num 100) ∧
    (100 : Rat) - 10 ≠ 100 := by
  refine ⟨fun clock => ⟨rfl, rfl, rfl, rfl, rfl, rfl, rfl⟩, rfl, by norm_num⟩

/-- C4 counterexample: a /grammar/check body whose `text` field is the empty
string passes validation and the handler returns a 200 envelope, refuting
the claim that an empty-string `text` is rejected with a validation error. -/
theorem C4_counterexample :
    AIService.GrammarCheckRequest.parse [("text", Json.str "")]
      = Except.ok { text := "" } ∧
    (AIService.check_grammar { text := "" }).statusCode = 200 ∧
    lookupField (AIService.check_grammar { text := "" }).body "status"
      = some (Json.str "Not implemented yet") := by
  exact ⟨rfl, rfl, rfl⟩

/-- C4 (amended): a /grammar/check request in which `text` is missing or not
a string is rejected with a distinguishable field-level validation error
before the handler runs, and the required field is never substituted by a
default; an empty string, however, is accepted and echoed in a 2xx
envelope. -/
theorem C4_required_text (body : List (String × Json))
    (h : lookupField body "text" = none) :
    AIService.GrammarCheckRequest.parse body
      = Except.error (FieldError.missing "text") ∧
    AIService.GrammarCheckRequest.parse [("text", Json.num 5)]
      = Except.error (FieldError.wrongType "text") ∧
    (∀ s, AIService.GrammarCheckRequest.parse [("text", Json.str s)]
      = Except.ok { text := s }) ∧
    AIService.GrammarCheckRequest.parse [("text", Json.str "")]
      = Except.ok { text := "" } ∧
    (AIService.check_grammar { text := "" }).statusCode = 200 := by
  refine ⟨?_, rfl, fun s => rfl, rfl, rfl⟩
  simp [AIService.GrammarCheckRequest.parse, getStr, h, Except.bind]

/-- C4 witness: instantiation at the empty body, which has no `text` key. -/
theorem C4_required_text_witness :
    lookupField [] "text" = none ∧
    (AIService.GrammarCheckRequest.parse []
      = Except.error (FieldError.missing "text") ∧
    AIService.GrammarCheckRequest.parse [("text", Json.num 5)]
      = Except.error (FieldError.wrongType "text") ∧
    (∀ s, AIService.GrammarCheckRequest.parse [("text", Json.str s)]
      = Except.ok { text := s }) ∧
    AIService.GrammarCheckRequest.parse [("text", Json.str "")]
      = Except.ok { text := "" } ∧
    (AIService.check_grammar { text := "" }).statusCode = 200) :=
  ⟨rfl, C4_required_text [] rfl⟩

/-- A stub response: HTTP 200 with an explicit "Not implemented yet" status
field in the body. -/
def stubOK (r : HttpResponse) : Prop :=
  r.statusCode = 200 ∧
  lookupField r.body "status" = some (Json.str "Not implemented yet")

set_option maxRecDepth 4000 in
/-- C5 (confirmed): every POST task endpoint of either service answers a
valid request with HTTP 200 and a body whose `status` field is exactly
"Not implemented yet"; no task endpoint signals the placeholder state as an
HTTP error. -/
theorem C5_stub_status
    (a : AIService.TextAnalysisRequest) (t : AIService.TranslationRequest)
    (g : AIService.GrammarCheckRequest) (c : AIService.ContentGenerationRequest)
    (s : AIService.TTSRequest) (v : AudioService.VoiceSynthesisRequest)
    (f : UploadFile) (ref lang atype fmt : String) :
    (stubOK (AIService.analyze_text a) ∧
     stubOK (AIService.analyze_difficulty a) ∧
     stubOK (AIService.translate_text t) ∧
     stubOK (AIService.check_grammar g) ∧
     stubOK (AIService.correct_grammar g) ∧
     stubOK (AIService.generate_content c) ∧
     stubOK (AIService.generate_exercises c) ∧
     stubOK (AIService.generate_questions c) ∧
     stubOK (AIService.generate_speech s) ∧
     stubOK AIService.chat_conversation ∧
     stubOK AIService.speaking_practice) ∧
    (stubOK (AudioService.transcribe_audio f lang) ∧
     stubOK AudioService.transcribe_real_time ∧
     stubOK (AudioService.analyze_pronunciation f ref lang) ∧
     stubOK (AudioService.score_pronunciation f ref lang) ∧
     stubOK (AudioService.pronunciation_feedback f ref lang) ∧
     stubOK (AudioService.generate_voice v) ∧
     stubOK AudioService.generate_ssml_voice ∧
     stubOK (AudioService.analyze_audio f atype) ∧
     stubOK (AudioService.analyze_phonemes f lang) ∧
     stubOK (AudioService.analyze_rhythm f lang) ∧
     stubOK (AudioService.reduce_noise f) ∧
     stubOK (AudioService.normalize_audio f) ∧
     stubOK (AudioService.convert_audio f fmt) ∧
     stubOK AudioService.conversation_practice ∧
     stubOK AudioService.word_pronunciation_practice ∧
     stubOK AudioService.sentence_reading_practice) := by
  repeat constructor

/-- C6 (confirmed): on every endpoint that accepts the field, an unset
optional field takes its documented default: language="en",
level="beginner", voice="default", speed=1.0, pitch=1.0 (and for the
multipart pronunciation endpoints, reference_text=""). -/
theorem C6_defaults (t : String) :
    AIService.TextAnalysisRequest.parse [("text", Json.str t)]
      = Except.ok { text := t, language := "en" } ∧
    AIService.ContentGenerationRequest.parse [("topic", Json.str t)]
      = Except.ok { topic := t, level := "beginner", content_type := "lesson" } ∧
    AIService.TTSRequest.parse [("text", Json.str t)]
      = Except.ok { text := t, language := "en", voice := "default" } ∧
    AudioService.VoiceSynthesisRequest.parse [("text", Json.str t)]
      = Except.ok { text := t, language := "en", voice := "default", speed := 1, pitch := 1 } ∧
    (∀ f : UploadFile,
      AudioService.transcribe_audio_route (some f) none
        = Except.ok (AudioService.transcribe_audio f "en")) ∧
    (∀ f : UploadFile,
      AudioService.analyze_pronunciation_route (some f) none none
        = Except.ok (AudioService.analyze_pronunciation f "" "en")) ∧
    (∀ f : UploadFile,
      AudioService.score_pronunciation_route (some f) none none
        = Except.ok (AudioService.score_pronunciation f "" "en")) ∧
    (∀ f : UploadFile,
      AudioService.pronunciation_feedback_route (some f) none none
        = Except.ok (AudioService.pronunciation_feedback f "" "en")) ∧
    (∀ f : UploadFile,
      AudioService.analyze_phonemes_route (some f) none
        = Except.ok (AudioService.analyze_phonemes f "en")) ∧
    (∀ f : UploadFile,
      AudioService.analyze_rhythm_route (some f) none
        = Except.ok (AudioService.analyze_rhythm f "en")) ∧
    (∀ f : UploadFile,
      AudioService.analyze_audio_route (some f) none
        = Except.ok (AudioService.analyze_audio f "general")) ∧
    (∀ f : UploadFile,
      AudioService.convert_audio_route (some f) none
        = Except.ok (AudioService.convert_audio f "wav")) := by
  exact ⟨rfl, rfl, rfl, rfl, fun f => rfl, fun f => rfl, fun f => rfl, fun f => rfl,
    fun f => rfl, fun f => rfl, fun f => rfl, fun f => rfl⟩

/-- C7 (confirmed): on every task endpoint, a request that sets its optional
fields explicitly to their default values produces a response identical to
the same request with those fields omitted. -/
theorem C7_default_idempotent (t : String) :
    (AIService.TextAnalysisRequest.parse
        [("text", Json.str t), ("language", Json.str "en")]).map AIService.analyze_text
      = (AIService.TextAnalysisRequest.parse [("text", Json.str t)]).map AIService.analyze_text ∧
    (AIService.TranslationRequest.parse
        [("text", Json.str t), ("source_lang", Json.str "vi"), ("target_lang", Json.str "en")]).map AIService.translate_text
      = (AIService.TranslationRequest.parse [("text", Json.str t)]).map AIService.translate_text ∧
    (AIService.ContentGenerationRequest.parse
        [("topic", Json.str t), ("level", Json.str "beginner"), ("content_type", Json.str "lesson")]).map AIService.generate_content
      = (AIService.ContentGenerationRequest.parse [("topic", Json.str t)]).map AIService.generate_content ∧
    (AIService.TTSRequest.parse
        [("text", Json.str t), ("language", Json.str "en"), ("voice", Json.str "default")]).map AIService.generate_speech
      = (AIService.TTSRequest.parse [("text", Json.str t)]).map AIService.generate_speech ∧
    (AudioService.VoiceSynthesisRequest.parse
        [("text", Json.str t), ("language", Json.str "en"), ("voice", Json.str "default"),
         ("speed", Json.num 1), ("pitch", Json.num 1)]).map AudioService.generate_voice
      = (AudioService.VoiceSynthesisRequest.parse [("text", Json.str t)]).map AudioService.generate_voice ∧
    (AIService.TextAnalysisRequest.parse
        [("text", Json.str t), ("language", Json.str "en")]).map AIService.analyze_difficulty
      = (AIService.TextAnalysisRequest.parse [("text", Json.str t)]).map AIService.analyze_difficulty ∧
    (AIService.ContentGenerationRequest.parse
        [("topic", Json.str t), ("level", Json.str "beginner"), ("content_type", Json.str "lesson")]).map AIService.generate_exercises
      = (AIService.ContentGenerationRequest.parse [("topic", Json.str t)]).map AIService.generate_exercises ∧
    (AIService.ContentGenerationRequest.parse
        [("topic", Json.str t), ("level", Json.str "beginner"), ("content_type", Json.str "lesson")]).map AIService.generate_questions
      = (AIService.ContentGenerationRequest.parse [("topic", Json.str t)]).map AIService.generate_questions ∧
    (∀ f : UploadFile,
      AudioService.transcribe_audio_route (some f) (some "en")
        = AudioService.transcribe_audio_route (some f) none) ∧
    (∀ f : UploadFile,
      AudioService.analyze_pronunciation_route (some f) (some "") (some "en")
        = AudioService.analyze_pronunciation_route (some f) none none) ∧
    (∀ f : UploadFile,
      AudioService.score_pronunciation_route (some f) (some "") (some "en")
        = AudioService.score_pronunciation_route (some f) none none) ∧
    (∀ f : UploadFile,
      AudioService.pronunciation_feedback_route (some f) (some "") (some "en")
        = AudioService.pronunciation_feedback_route (some f) none none) ∧
    (∀ f : UploadFile,
      AudioService.analyze_phonemes_route (some f) (some "en")
        = AudioService.analyze_phonemes_route (some f) none) ∧
    (∀ f : UploadFile,
      AudioService.analyze_rhythm_route (some f) (some "en")
        = AudioService.analyze_rhythm_route (some f) none) ∧
    (∀ f : UploadFile,
      AudioService.analyze_audio_route (some f) (some "general")
        = AudioService.analyze_audio_route (some f) none) ∧
    (∀ f : UploadFile,
      AudioService.convert_audio_route (some f) (some "wav")
        = AudioService.convert_audio_route (some f) none) := by
  exact ⟨rfl, rfl, rfl, rfl, rfl, rfl, rfl, rfl, fun f => rfl, fun f => rfl, fun f => rfl,
    fun f => rfl, fun f => rfl, fun f => rfl, fun f => rfl, fun f => rfl⟩

/-- C8 (confirmed): the /translate handler echoes the request text as
`source_text` and the language codes unchanged, with service "AI Service";
in particular the body with text "hello", source_lang "en", target_lang "vi"
parses to exactly those values. -/
theorem C8_translate_echo (request : AIService.TranslationRequest) :
    (lookupField (AIService.translate_text request).body "source_text"
        = some (Json.str request.text) ∧
     lookupField (AIService.translate_text request).body "source_lang"
        = some (Json.str request.source_lang) ∧
     lookupField (AIService.translate_text request).body "target_lang"
        = some (Json.str request.target_lang) ∧
     lookupField (AIService.translate_text request).body "service"
        = some (Json.str "AI Service")) ∧
    AIService.TranslationRequest.parse
        [("text", Json.str "hello"), ("source_lang", Json.str "en"), ("target_lang", Json.str "vi")]
      = Except.ok { text := "hello", source_lang := "en", target_lang := "vi" } := by
  exact ⟨⟨rfl, rfl, rfl, rfl⟩, rfl⟩

/-- C9 (confirmed): every audio-consuming endpoint's response depends only
on the upload's filename and the other request fields, never on the audio
bytes: two uploads with the same filename but different content yield
identical responses on every such route. -/
theorem C9_content_independent (f1 f2 : UploadFile) (h : f1.filename = f2.filename)
    (ref lang atype fmt : Option String) :
    AudioService.transcribe_audio_route (some f1) lang
      = AudioService.transcribe_audio_route (some f2) lang ∧
    AudioService.analyze_pronunciation_route (some f1) ref lang
      = AudioService.analyze_pronunciation_route (some f2) ref lang ∧
    AudioService.score_pronunciation_route (some f1) ref lang
      = AudioService.score_pronunciation_route (some f2) ref lang ∧
    AudioService.pronunciation_feedback_route (some f1) ref lang
      = AudioService.pronunciation_feedback_route (some f2) ref lang ∧
    AudioService.analyze_audio_route (some f1) atype
      = AudioService.analyze_audio_route (some f2) atype ∧
    AudioService.analyze_phonemes_route (some f1) lang
      = AudioService.analyze_phonemes_route (some f2) lang ∧
    AudioService.analyze_rhythm_route (some f1) lang
      = AudioService.analyze_rhythm_route (some f2) lang ∧
    AudioService.reduce_noise_route (some f1)
      = AudioService.reduce_noise_route (some f2) ∧
    AudioService.normalize_audio_route (some f1)
      = AudioService.normalize_audio_route (some f2) ∧
    AudioService.convert_audio_route (some f1) fmt
      = AudioService.convert_audio_route (some f2) fmt := by
  simp [AudioService.transcribe_audio_route, AudioService.transcribe_audio,
        AudioService.analyze_pronunciation_route, AudioService.analyze_pronunciation,
        AudioService.score_pronunciation_route, AudioService.score_pronunciation,
        AudioService.pronunciation_feedback_route, AudioService.pronunciation_feedback,
        AudioService.analyze_audio_route, AudioService.analyze_audio,
        AudioService.analyze_phonemes_route, AudioService.analyze_phonemes,
        AudioService.analyze_rhythm_route, AudioService.analyze_rhythm,
        AudioService.reduce_noise_route, AudioService.reduce_noise,
        AudioService.normalize_audio_route, AudioService.normalize_audio,
        AudioService.convert_audio_route, AudioService.convert_audio, h]

/-- C9 witness: two uploads named "a.wav" with different bytes. -/
theorem C9_content_independent_witness :
    (UploadFile.mk "a.wav" [0]).filename = (UploadFile.mk "a.wav" [1]).filename ∧
    AudioService.transcribe_audio_route (some (UploadFile.mk "a.wav" [0])) none
      = AudioService.transcribe_audio_route (some (UploadFile.mk "a.wav" [1])) none :=
  ⟨rfl, (C9_content_independent (UploadFile.mk "a.wav" [0]) (UploadFile.mk "a.wav" [1])
    rfl none none none none).1⟩

/-- C10 (confirmed): each of /pronunciation/analyze, /pronunciation/score
and /pronunciation/feedback accepts a request that omits reference_text:
the parameter defaults to "" and the response echoes reference_text="". -/
theorem C10_reference_text_optional (f : UploadFile) (lang : Option String) :
    AudioService.analyze_pronunciation_route (some f) none lang
      = Except.ok (AudioService.analyze_pronunciation f "" (lang.getD "en")) ∧
    lookupField (AudioService.analyze_pronunciation f "" (lang.getD "en")).body "reference_text"
      = some (Json.str "") ∧
    AudioService.score_pronunciation_route (some f) none lang
      = Except.ok (AudioService.score_pronunciation f "" (lang.getD "en")) ∧
    lookupField (AudioService.score_pronunciation f "" (lang.getD "en")).body "reference_text"
      = some (Json.str "") ∧
    AudioService.pronunciation_feedback_route (some f) none lang
      = Except.ok (AudioService.pronunciation_feedback f "" (lang.getD "en")) ∧
    lookupField (AudioService.pronunciation_feedback f "" (lang.getD "en")).body "reference_text"
      = some (Json.str "") := by
  exact ⟨rfl, rfl, rfl, rfl, rfl, rfl⟩
